import Mathlib

/-!
Shallow embedding of the YouKo backend (src/app.py): the engagement and
notification subsystem.  Tables become association lists inside a `State`
record; each Flask route that the claims touch becomes a Lean function on
`State`, translated statement by statement from the Python source.
Integers stored in counter columns are modelled as `Int` (SQL integers),
user/video/comment ids as `Nat`, timestamps as `Nat`.
-/

namespace Youko

/-- Error kinds at the operation boundary (HTTP status codes in app.py):
`Unauthenticated` = 401, `InvalidInput` = 400, `ServerError` = an unhandled
Python exception (e.g. indexing a missing row). -/
inductive Err where
  | Unauthenticated
  | InvalidInput
  | ServerError
deriving DecidableEq, Repr

/-- A row of the `users` table (the columns the claims need). -/
structure User where
  display_name : String
  avatar : Option String
deriving DecidableEq, Repr

/-- A row of the `videos` table (the columns the claims need). -/
structure Video where
  user_id : Nat
  views : Int
  likes_count : Int
  dislikes_count : Int
  comments_count : Int
deriving DecidableEq, Repr

/-- A row of the `likes` table: the per-(user, video) reaction ledger.
`value` is stored exactly as submitted (1 = like, -1 = dislike by
convention, but the column holds any integer). -/
structure LikeRow where
  user_id : Nat
  video_id : Nat
  value : Int
deriving DecidableEq, Repr

/-- A row of the `comments` table. -/
structure Comment where
  user_id : Nat
  video_id : Nat
  text : String
  parent_id : Option Nat
  likes_count : Int
  pinned : Bool
  created_at : Nat
deriving DecidableEq, Repr

/-- Notification type column: `'comment'` or `'subscribe'` in app.py. -/
inductive NType where
  | comment
  | subscribe
deriving DecidableEq, Repr

/-- A row of the `notifications` table. -/
structure Notif where
  user_id : Nat
  from_user_id : Nat
  ntype : NType
  video_id : Option Nat
  read : Bool
  created_at : Nat
deriving DecidableEq, Repr

/-- A row of the `history` table: key (user_id, video_id), `watched_at`. -/
structure HistRow where
  user_id : Nat
  video_id : Nat
  watched_at : Nat
deriving DecidableEq, Repr

/-- The relational store: each table as a list of rows; keyed tables as
association lists on the id. `nextCommentId` models the id sequence. -/
structure State where
  users : List (Nat × User)
  videos : List (Nat × Video)
  likes : List LikeRow
  comments : List (Nat × Comment)
  comment_likes : List (Nat × Nat)
  subscriptions : List (Nat × Nat)
  notifications : List Notif
  history : List HistRow
  nextCommentId : Nat
deriving DecidableEq, Repr

/-- `SELECT * FROM users WHERE id=%s` (fetchone). -/
def getUser (s : State) (uid : Nat) : Option User :=
  (s.users.find? (fun p => p.1 = uid)).map (·.2)

/-- `SELECT * FROM videos WHERE id=%s` (fetchone). -/
def getVideo (s : State) (vid : Nat) : Option Video :=
  (s.videos.find? (fun p => p.1 = vid)).map (·.2)

/-- `UPDATE videos SET ... WHERE id=%s`: applies `f` to every row whose id
matches (at most one under the primary-key invariant). -/
def updVideo (s : State) (vid : Nat) (f : Video → Video) : State :=
  { s with videos := s.videos.map (fun p => if p.1 = vid then (p.1, f p.2) else p) }

/-- `SELECT value FROM likes WHERE user_id=%s AND video_id=%s` (fetchone). -/
def findLike (s : State) (uid vid : Nat) : Option Int :=
  (s.likes.find? (fun r => r.user_id = uid ∧ r.video_id = vid)).map (·.value)

/-- `DELETE FROM likes WHERE user_id=%s AND video_id=%s`. -/
def deleteLike (s : State) (uid vid : Nat) : State :=
  { s with likes := s.likes.filter (fun r => ¬(r.user_id = uid ∧ r.video_id = vid)) }

/-- `UPDATE likes SET value=%s WHERE user_id=%s AND video_id=%s`. -/
def setLikeValue (s : State) (uid vid : Nat) (v : Int) : State :=
  { s with likes :=
      s.likes.map fun r =>
        if r.user_id = uid ∧ r.video_id = vid then { r with value := v } else r }

/-- `INSERT INTO likes (user_id, video_id, value) VALUES (...)`. -/
def insertLike (s : State) (uid vid : Nat) (v : Int) : State :=
  { s with likes := ⟨uid, vid, v⟩ :: s.likes }

/-- The state-mutating body of `like_video` (app.py lines 313-341): the
branch structure mirrors the Python `if existing / if value == 0 or
existing['value'] == value / ...` exactly.  Returns the new state and the
`user_liked` value echoed back. -/
def likeVideoCore (s : State) (uid vid : Nat) (value : Int) : State × Int :=
  match findLike s uid vid with
  | some ex =>
    if value = 0 ∨ ex = value then
      let s₁ := deleteLike s uid vid
      let s₂ := if ex = 1
        then updVideo s₁ vid (fun v => { v with likes_count := max 0 (v.likes_count - 1) })
        else updVideo s₁ vid (fun v => { v with dislikes_count := max 0 (v.dislikes_count - 1) })
      (s₂, 0)
    else
      let s₁ := setLikeValue s uid vid value
      let s₂ := if value = 1
        then updVideo s₁ vid (fun v =>
          { v with likes_count := v.likes_count + 1,
                   dislikes_count := max 0 (v.dislikes_count - 1) })
        else updVideo s₁ vid (fun v =>
          { v with dislikes_count := v.dislikes_count + 1,
                   likes_count := max 0 (v.likes_count - 1) })
      (s₂, value)
  | none =>
    if value ≠ 0 then
      let s₁ := insertLike s uid vid value
      let s₂ := if value = 1
        then updVideo s₁ vid (fun v => { v with likes_count := v.likes_count + 1 })
        else updVideo s₁ vid (fun v => { v with dislikes_count := v.dislikes_count + 1 })
      (s₂, value)
    else
      (s, 0)

/-- Response of `POST /api/like`: `{'user_liked': ..., 'likes': ..., 'dislikes': ...}`. -/
structure LikeResp where
  user_liked : Int
  likes : Int
  dislikes : Int
deriving DecidableEq, Repr

/-- `POST /api/like` (app.py `like_video`, lines 304-343).  `uid?` is the
session user, `value?` the request's `value` field (`data.get('value', 1)`
defaults a missing field to 1).  After mutating, the route re-reads the
video's counters; a missing video row makes the Python `v['likes_count']`
subscript blow up, modelled as `ServerError`. -/
def like_video (uid? : Option Nat) (s : State) (vid : Nat) (value? : Option Int) :
    Except Err (State × LikeResp) :=
  match uid? with
  | none => .error .Unauthenticated
  | some uid =>
    let value := value?.getD 1
    let (s', user_liked) := likeVideoCore s uid vid value
    match getVideo s' vid with
    | none => .error .ServerError
    | some v => .ok (s', ⟨user_liked, v.likes_count, v.dislikes_count⟩)

/-- `POST /api/view` (app.py `add_view`, lines 288-302).  The request's
`video_id` field is optional (`data.get('video_id')`) and Python's
`if vid:` also treats the id 0 as absent — in both cases the call does
nothing.  Otherwise: unconditionally `UPDATE videos SET views=views+1`;
if a session user exists, `INSERT INTO history ... ON CONFLICT
(user_id,video_id) DO UPDATE SET watched_at=NOW()`.  `now` stands for the
database's `NOW()`. -/
def add_view (uid? : Option Nat) (s : State) (vid? : Option Nat) (now : Nat) : State :=
  match vid? with
  | none => s
  | some vid =>
    if vid = 0 then s
    else
      let s₁ := updVideo s vid (fun v => { v with views := v.views + 1 })
      match uid? with
      | none => s₁
      | some uid =>
        if s₁.history.any (fun h => h.user_id = uid ∧ h.video_id = vid) then
          { s₁ with history :=
              s₁.history.map fun h =>
                if h.user_id = uid ∧ h.video_id = vid then { h with watched_at := now }
                else h }
        else
          { s₁ with history := s₁.history ++ [⟨uid, vid, now⟩] }

/-- Python `str.strip()`: drop leading and trailing whitespace (modelled
on the underlying character list so it evaluates in proofs). -/
def strip (t : String) : String :=
  ⟨((t.data.dropWhile Char.isWhitespace).reverse.dropWhile Char.isWhitespace).reverse⟩

/-- Python slicing `t[:n]`: the first `n` characters. -/
def pyTake (t : String) (n : Nat) : String := ⟨t.data.take n⟩

/-- `POST /api/comment` (app.py `add_comment`, lines 379-403).  Rejects
empty trimmed text; inserts a top-level comment (text truncated to 1000),
increments the video's `comments_count`, and — when the video exists and
its owner differs from the commenter — inserts a `comment` notification to
the owner.  Returns the new state and the inserted comment's id. -/
def add_comment (uid? : Option Nat) (s : State) (vid : Nat) (text : String) (now : Nat) :
    Except Err (State × Nat) :=
  match uid? with
  | none => .error .Unauthenticated
  | some uid =>
    if strip text = "" then .error .InvalidInput
    else
      let cid := s.nextCommentId
      let row : Comment := ⟨uid, vid, pyTake (strip text) 1000, none, 0, false, now⟩
      let s₁ := { s with comments := s.comments ++ [(cid, row)], nextCommentId := cid + 1 }
      let s₂ := updVideo s₁ vid (fun v => { v with comments_count := v.comments_count + 1 })
      let s₃ :=
        match getVideo s₂ vid with
        | some v =>
          if v.user_id ≠ uid then
            { s₂ with notifications :=
                s₂.notifications ++ [⟨v.user_id, uid, .comment, some vid, false, now⟩] }
          else s₂
        | none => s₂
      .ok (s₃, cid)

/-- `POST /api/comment_reply` (app.py `reply_comment`, lines 405-422).
Rejects empty trimmed text; inserts a reply row with `parent_id` set; no
counter update and no notification. -/
def reply_comment (uid? : Option Nat) (s : State) (vid : Nat) (text : String)
    (parent_id : Option Nat) (now : Nat) : Except Err (State × Nat) :=
  match uid? with
  | none => .error .Unauthenticated
  | some uid =>
    if strip text = "" then .error .InvalidInput
    else
      let cid := s.nextCommentId
      let row : Comment := ⟨uid, vid, pyTake (strip text) 1000, parent_id, 0, false, now⟩
      .ok ({ s with comments := s.comments ++ [(cid, row)], nextCommentId := cid + 1 }, cid)

/-- `UPDATE comments SET ... WHERE id=%s`. -/
def updComment (s : State) (cid : Nat) (f : Comment → Comment) : State :=
  { s with comments := s.comments.map (fun p => if p.1 = cid then (p.1, f p.2) else p) }

/-- `POST /api/comment_like` (app.py `like_comment`, lines 424-441):
existence toggle on `comment_likes` with a floored decrement / plain
increment of the comment's `likes_count`.  Returns the new `liked` flag. -/
def like_comment (uid? : Option Nat) (s : State) (cid : Nat) : Except Err (State × Bool) :=
  match uid? with
  | none => .error .Unauthenticated
  | some uid =>
    if s.comment_likes.any (fun p => p.1 = uid ∧ p.2 = cid) then
      let s₁ := { s with comment_likes :=
        s.comment_likes.filter (fun p => ¬(p.1 = uid ∧ p.2 = cid)) }
      .ok (updComment s₁ cid (fun c => { c with likes_count := max 0 (c.likes_count - 1) }), false)
    else
      let s₁ := { s with comment_likes := s.comment_likes ++ [(uid, cid)] }
      .ok (updComment s₁ cid (fun c => { c with likes_count := c.likes_count + 1 }), true)

/-- `POST /api/delete_comment` (app.py `delete_comment`, lines 443-452):
`DELETE FROM comments WHERE id=%s AND user_id=%s`, then `{'success': True}`
unconditionally — no existence or ownership error is ever reported. -/
def delete_comment (uid? : Option Nat) (s : State) (cid : Nat) : Except Err State :=
  match uid? with
  | none => .error .Unauthenticated
  | some uid =>
    .ok { s with comments := s.comments.filter (fun p => ¬(p.1 = cid ∧ p.2.user_id = uid)) }

/-- `POST /api/subscribe` (app.py `subscribe`, lines 473-492): existence
toggle on `subscriptions`; on creation only, inserts a `subscribe`
notification addressed to `channel_id` — with no check that
`channel_id ≠ uid`.  Returns the resulting `subscribed` flag. -/
def subscribe (uid? : Option Nat) (s : State) (channel_id : Nat) (now : Nat) :
    Except Err (State × Bool) :=
  match uid? with
  | none => .error .Unauthenticated
  | some uid =>
    if s.subscriptions.any (fun p => p.1 = uid ∧ p.2 = channel_id) then
      .ok ({ s with subscriptions :=
        s.subscriptions.filter (fun p => ¬(p.1 = uid ∧ p.2 = channel_id)) }, false)
    else
      .ok ({ s with
        subscriptions := s.subscriptions ++ [(uid, channel_id)],
        notifications :=
          s.notifications ++ [⟨channel_id, uid, .subscribe, none, false, now⟩] }, true)

/-- One element of the `GET /api/notifications` response: a notification
row joined with the originating user's `display_name` and `avatar`. -/
structure NotifView where
  user_id : Nat
  from_user_id : Nat
  ntype : NType
  video_id : Option Nat
  read : Bool
  created_at : Nat
  from_name : String
  from_avatar : Option String
deriving DecidableEq, Repr

/-- Insert into a list kept sorted by `created_at` descending. -/
def insertDesc (n : NotifView) : List NotifView → List NotifView
  | [] => [n]
  | m :: ms =>
    if m.created_at ≤ n.created_at then n :: m :: ms else m :: insertDesc n ms

/-- Sort by `created_at` descending (`ORDER BY n.created_at DESC`). -/
def sortDesc : List NotifView → List NotifView
  | [] => []
  | n :: ns => insertDesc n (sortDesc ns)

/-- `GET /api/notifications` (app.py `notifications`, lines 651-670): the
caller's notifications inner-joined with `users` on `from_user_id`,
ordered by `created_at DESC`, limited to 50; then
`UPDATE notifications SET read=TRUE WHERE user_id=%s` marks every
notification of the caller read.  An anonymous caller gets `[]` and no
state change. -/
def notifications_route (uid? : Option Nat) (s : State) : List NotifView × State :=
  match uid? with
  | none => ([], s)
  | some uid =>
    let joined := s.notifications.filterMap fun n =>
      if n.user_id = uid then
        (getUser s n.from_user_id).map fun u =>
          ⟨n.user_id, n.from_user_id, n.ntype, n.video_id, n.read, n.created_at,
           u.display_name, u.avatar⟩
      else none
    let page := (sortDesc joined).take 50
    let s' := { s with notifications :=
      s.notifications.map fun n => if n.user_id = uid then { n with read := true } else n }
    (page, s')

/-- The unread-count query of `GET /api/me` (app.py lines 150-154):
`SELECT COUNT(*) FROM notifications WHERE user_id=%s AND read=FALSE`. -/
def unreadCount (s : State) (uid : Nat) : Nat :=
  (s.notifications.filter (fun n => n.user_id = uid ∧ n.read = false)).length

/-! ### Basic lemmas about the table operations -/

theorem find?_map_of_pred_inv {α : Type} (g : α → α) (p : α → Bool)
    (hp : ∀ a, p (g a) = p a) :
    ∀ l : List α, (l.map g).find? p = (l.find? p).map g := by
  intro l
  induction l with
  | nil => rfl
  | cons a t ih =>
    cases h : p a with
    | true =>
      rw [List.map_cons, List.find?_cons_of_pos _ (by rw [hp]; exact h),
        List.find?_cons_of_pos _ h, Option.map_some']
    | false =>
      rw [List.map_cons, List.find?_cons_of_neg _ (by simp [hp, h]),
        List.find?_cons_of_neg _ (by simp [h]), ih]

theorem getVideo_updVideo_self (s : State) (vid : Nat) (f : Video → Video) :
    getVideo (updVideo s vid f) vid = (getVideo s vid).map f := by
  unfold getVideo updVideo
  simp only
  rw [show (fun p : Nat × Video => if p.1 = vid then (p.1, f p.2) else p) =
      (fun p : Nat × Video => if p.1 = vid then (p.1, f p.2) else p) from rfl,
    find?_map_of_pred_inv _ _ (by intro a; by_cases h : a.1 = vid <;> simp [h])]
  cases h : s.videos.find? (fun p => p.1 = vid) with
  | none => rfl
  | some q =>
    have hq : q.1 = vid := by simpa using List.find?_some h
    simp [hq]

theorem getVideo_insertLike (s : State) (uid vid : Nat) (w : Int) (vid' : Nat) :
    getVideo (insertLike s uid vid w) vid' = getVideo s vid' := rfl

theorem getVideo_deleteLike (s : State) (uid vid : Nat) (vid' : Nat) :
    getVideo (deleteLike s uid vid) vid' = getVideo s vid' := rfl

theorem getVideo_setLikeValue (s : State) (uid vid : Nat) (w : Int) (vid' : Nat) :
    getVideo (setLikeValue s uid vid w) vid' = getVideo s vid' := rfl

theorem findLike_updVideo (s : State) (vid : Nat) (f : Video → Video) (uid vid' : Nat) :
    findLike (updVideo s vid f) uid vid' = findLike s uid vid' := rfl

theorem findLike_insertLike_self (s : State) (uid vid : Nat) (w : Int) :
    findLike (insertLike s uid vid w) uid vid = some w := by
  simp [findLike, insertLike]

theorem findLike_deleteLike_self (s : State) (uid vid : Nat) :
    findLike (deleteLike s uid vid) uid vid = none := by
  simp only [findLike, deleteLike, Option.map_eq_none', List.find?_eq_none, List.mem_filter]
  intro r hr hp
  simp at hp
  have h2 := hr.2
  simp at h2
  tauto

theorem findLike_setLikeValue_self (s : State) (uid vid : Nat) (x w : Int)
    (h : findLike s uid vid = some w) :
    findLike (setLikeValue s uid vid x) uid vid = some x := by
  have h' := h
  unfold findLike at h'
  unfold findLike setLikeValue
  simp only
  rw [find?_map_of_pred_inv _ _
    (by intro a
        by_cases h1 : a.user_id = uid <;> by_cases h2 : a.video_id = vid <;> simp [h1, h2])]
  cases hf : s.likes.find? (fun r => r.user_id = uid ∧ r.video_id = vid) with
  | none => rw [hf] at h'; simp at h'
  | some r =>
    have hr : r.user_id = uid ∧ r.video_id = vid := by simpa using List.find?_some hf
    simp [hr.1, hr.2]

/-! ### C1: the reaction transition table -/

/-- C1: For every authenticated user and video, `like_video` follows the
spec's transition table.  With no existing reaction: desired=like (1)
inserts a like row and increments `likes_count`; desired=dislike (-1)
inserts a dislike row and increments `dislikes_count`; desired=none (0)
changes nothing.  With an existing reaction `w`: submitting the same value
or 0 deletes the row and decrements the matching counter floored at 0;
submitting the opposite value updates the row, decrements the old counter
(floored) and increments the new one.  The call returns the resulting
reaction state together with the video's updated counters. -/
theorem C1_reaction_transition_table (s : State) (uid vid : Nat) (v : Video)
    (hv : getVideo s vid = some v) :
    (findLike s uid vid = none →
      ∃ s', like_video (some uid) s vid (some 1) =
          .ok (s', ⟨1, v.likes_count + 1, v.dislikes_count⟩) ∧
        findLike s' uid vid = some 1 ∧
        getVideo s' vid = some { v with likes_count := v.likes_count + 1 }) ∧
    (findLike s uid vid = none →
      ∃ s', like_video (some uid) s vid (some (-1)) =
          .ok (s', ⟨-1, v.likes_count, v.dislikes_count + 1⟩) ∧
        findLike s' uid vid = some (-1) ∧
        getVideo s' vid = some { v with dislikes_count := v.dislikes_count + 1 }) ∧
    (findLike s uid vid = none →
      like_video (some uid) s vid (some 0) =
        .ok (s, ⟨0, v.likes_count, v.dislikes_count⟩)) ∧
    (∀ w d : Int, findLike s uid vid = some w → d = 0 ∨ d = w →
      ∃ s', like_video (some uid) s vid (some d) =
          .ok (s', ⟨0,
            if w = 1 then max 0 (v.likes_count - 1) else v.likes_count,
            if w = 1 then v.dislikes_count else max 0 (v.dislikes_count - 1)⟩) ∧
        findLike s' uid vid = none ∧
        getVideo s' vid = some (if w = 1
          then { v with likes_count := max 0 (v.likes_count - 1) }
          else { v with dislikes_count := max 0 (v.dislikes_count - 1) })) ∧
    (findLike s uid vid = some 1 →
      ∃ s', like_video (some uid) s vid (some (-1)) =
          .ok (s', ⟨-1, max 0 (v.likes_count - 1), v.dislikes_count + 1⟩) ∧
        findLike s' uid vid = some (-1) ∧
        getVideo s' vid = some { v with likes_count := max 0 (v.likes_count - 1),
                                        dislikes_count := v.dislikes_count + 1 }) ∧
    (findLike s uid vid = some (-1) →
      ∃ s', like_video (some uid) s vid (some 1) =
          .ok (s', ⟨1, v.likes_count + 1, max 0 (v.dislikes_count - 1)⟩) ∧
        findLike s' uid vid = some 1 ∧
        getVideo s' vid = some { v with likes_count := v.likes_count + 1,
                                        dislikes_count := max 0 (v.dislikes_count - 1) }) := by
  refine ⟨?_, ?_, ?_, ?_, ?_, ?_⟩
  · -- none → like
    intro h
    refine ⟨updVideo (insertLike s uid vid 1) vid
      (fun v => { v with likes_count := v.likes_count + 1 }), ?_, ?_, ?_⟩
    · have hgv : getVideo (updVideo (insertLike s uid vid 1) vid
          (fun v => { v with likes_count := v.likes_count + 1 })) vid =
          some { v with likes_count := v.likes_count + 1 } := by
        rw [getVideo_updVideo_self, getVideo_insertLike, hv]; rfl
      simp [like_video, likeVideoCore, h, hgv]
    · rw [findLike_updVideo, findLike_insertLike_self]
    · rw [getVideo_updVideo_self, getVideo_insertLike, hv]; rfl
  · -- none → dislike
    intro h
    refine ⟨updVideo (insertLike s uid vid (-1)) vid
      (fun v => { v with dislikes_count := v.dislikes_count + 1 }), ?_, ?_, ?_⟩
    · have hgv : getVideo (updVideo (insertLike s uid vid (-1)) vid
          (fun v => { v with dislikes_count := v.dislikes_count + 1 })) vid =
          some { v with dislikes_count := v.dislikes_count + 1 } := by
        rw [getVideo_updVideo_self, getVideo_insertLike, hv]; rfl
      simp [like_video, likeVideoCore, h, hgv]
    · rw [findLike_updVideo, findLike_insertLike_self]
    · rw [getVideo_updVideo_self, getVideo_insertLike, hv]; rfl
  · -- none → none
    intro h
    simp [like_video, likeVideoCore, h, hv]
  · -- existing w, desired same or none: toggle off
    intro w d h hd
    by_cases hw : w = 1
    · subst hw
      refine ⟨updVideo (deleteLike s uid vid) vid
        (fun v => { v with likes_count := max 0 (v.likes_count - 1) }), ?_, ?_, ?_⟩
      · have hgv : getVideo (updVideo (deleteLike s uid vid) vid
            (fun v => { v with likes_count := max 0 (v.likes_count - 1) })) vid =
            some { v with likes_count := max 0 (v.likes_count - 1) } := by
          rw [getVideo_updVideo_self, getVideo_deleteLike, hv]; rfl
        rcases hd with rfl | rfl
        · simp [like_video, likeVideoCore, h, hgv]
        · simp [like_video, likeVideoCore, h, hgv]
      · rw [findLike_updVideo, findLike_deleteLike_self]
      · rw [getVideo_updVideo_self, getVideo_deleteLike, hv]; simp
    · refine ⟨updVideo (deleteLike s uid vid) vid
        (fun v => { v with dislikes_count := max 0 (v.dislikes_count - 1) }), ?_, ?_, ?_⟩
      · have hgv : getVideo (updVideo (deleteLike s uid vid) vid
            (fun v => { v with dislikes_count := max 0 (v.dislikes_count - 1) })) vid =
            some { v with dislikes_count := max 0 (v.dislikes_count - 1) } := by
          rw [getVideo_updVideo_self, getVideo_deleteLike, hv]; rfl
        rcases hd with rfl | rfl
        · simp [like_video, likeVideoCore, h, hgv, hw]
        · simp [like_video, likeVideoCore, h, hgv, hw]
      · rw [findLike_updVideo, findLike_deleteLike_self]
      · rw [getVideo_updVideo_self, getVideo_deleteLike, hv]; simp [hw]
  · -- like → dislike
    intro h
    refine ⟨updVideo (setLikeValue s uid vid (-1)) vid
      (fun v => { v with dislikes_count := v.dislikes_count + 1,
                         likes_count := max 0 (v.likes_count - 1) }), ?_, ?_, ?_⟩
    · have hgv : getVideo (updVideo (setLikeValue s uid vid (-1)) vid
          (fun v => { v with dislikes_count := v.dislikes_count + 1,
                             likes_count := max 0 (v.likes_count - 1) })) vid =
          some { v with likes_count := max 0 (v.likes_count - 1),
                        dislikes_count := v.dislikes_count + 1 } := by
        rw [getVideo_updVideo_self, getVideo_setLikeValue, hv]; rfl
      simp [like_video, likeVideoCore, h, hgv]
    · rw [findLike_updVideo]
      exact findLike_setLikeValue_self s uid vid (-1) 1 h
    · rw [getVideo_updVideo_self, getVideo_setLikeValue, hv]; rfl
  · -- dislike → like
    intro h
    refine ⟨updVideo (setLikeValue s uid vid 1) vid
      (fun v => { v with likes_count := v.likes_count + 1,
                         dislikes_count := max 0 (v.dislikes_count - 1) }), ?_, ?_, ?_⟩
    · have hgv : getVideo (updVideo (setLikeValue s uid vid 1) vid
          (fun v => { v with likes_count := v.likes_count + 1,
                             dislikes_count := max 0 (v.dislikes_count - 1) })) vid =
          some { v with likes_count := v.likes_count + 1,
                        dislikes_count := max 0 (v.dislikes_count - 1) } := by
        rw [getVideo_updVideo_self, getVideo_setLikeValue, hv]; rfl
      simp [like_video, likeVideoCore, h, hgv]
    · rw [findLike_updVideo]
      exact findLike_setLikeValue_self s uid vid 1 (-1) h
    · rw [getVideo_updVideo_self, getVideo_setLikeValue, hv]; rfl

/-- A small concrete database: users 1 (alice) and 2 (bob); video 5 owned
by user 2 with all counters 0; all other tables empty. -/
def SA : State :=
  ⟨[(1, ⟨"alice", none⟩), (2, ⟨"bob", none⟩)],
   [(5, ⟨2, 0, 0, 0, 0⟩)], [], [], [], [], [], [], 1⟩

/-- Witness for C1: in `SA`, user 1 has no reaction on video 5; liking it
inserts the row and moves `likes_count` from 0 to 1. -/
theorem C1_reaction_transition_table_witness :
    ∃ s', like_video (some 1) SA 5 (some 1) = .ok (s', ⟨1, 1, 0⟩) ∧
      findLike s' 1 5 = some 1 ∧
      getVideo s' 5 = some ⟨2, 0, 1, 0, 0⟩ :=
  (C1_reaction_transition_table SA 1 5 ⟨2, 0, 0, 0, 0⟩ (by decide)).1 (by decide)

/-! ### C2: toggle-off round trip -/

/-- C2: starting from no reaction and a non-negative `likes_count`, liking
twice removes the reaction row and returns `likes_count` to its original
value. -/
theorem C2_toggle_off_roundtrip (s : State) (uid vid : Nat) (v : Video)
    (hv : getVideo s vid = some v) (h0 : findLike s uid vid = none)
    (hnn : 0 ≤ v.likes_count) :
    ∃ s₁ s₂,
      like_video (some uid) s vid (some 1) =
        .ok (s₁, ⟨1, v.likes_count + 1, v.dislikes_count⟩) ∧
      like_video (some uid) s₁ vid (some 1) =
        .ok (s₂, ⟨0, v.likes_count, v.dislikes_count⟩) ∧
      findLike s₂ uid vid = none ∧
      getVideo s₂ vid = some v := by
  refine ⟨updVideo (insertLike s uid vid 1) vid
      (fun v => { v with likes_count := v.likes_count + 1 }),
    updVideo (deleteLike (updVideo (insertLike s uid vid 1) vid
        (fun v => { v with likes_count := v.likes_count + 1 })) uid vid) vid
      (fun v => { v with likes_count := max 0 (v.likes_count - 1) }), ?_, ?_, ?_, ?_⟩
  · have hgv : getVideo (updVideo (insertLike s uid vid 1) vid
        (fun v => { v with likes_count := v.likes_count + 1 })) vid =
        some { v with likes_count := v.likes_count + 1 } := by
      rw [getVideo_updVideo_self, getVideo_insertLike, hv]; rfl
    simp [like_video, likeVideoCore, h0, hgv]
  · have h1 : findLike (updVideo (insertLike s uid vid 1) vid
        (fun v => { v with likes_count := v.likes_count + 1 })) uid vid = some 1 := by
      rw [findLike_updVideo, findLike_insertLike_self]
    have hgv2 : getVideo (updVideo (deleteLike (updVideo (insertLike s uid vid 1) vid
          (fun v => { v with likes_count := v.likes_count + 1 })) uid vid) vid
        (fun v => { v with likes_count := max 0 (v.likes_count - 1) })) vid =
        some { v with likes_count := max 0 (v.likes_count + 1 - 1) } := by
      rw [getVideo_updVideo_self, getVideo_deleteLike, getVideo_updVideo_self,
        getVideo_insertLike, hv]; rfl
    have harith : max 0 (v.likes_count + 1 - 1) = v.likes_count := by
      rw [add_sub_cancel_right]; exact max_eq_right hnn
    rw [harith] at hgv2
    simp [like_video, likeVideoCore, h1, hgv2]
  · rw [findLike_updVideo, findLike_deleteLike_self]
  · have hgv2 : getVideo (updVideo (deleteLike (updVideo (insertLike s uid vid 1) vid
          (fun v => { v with likes_count := v.likes_count + 1 })) uid vid) vid
        (fun v => { v with likes_count := max 0 (v.likes_count - 1) })) vid =
        some { v with likes_count := max 0 (v.likes_count + 1 - 1) } := by
      rw [getVideo_updVideo_self, getVideo_deleteLike, getVideo_updVideo_self,
        getVideo_insertLike, hv]; rfl
    rw [hgv2, add_sub_cancel_right, max_eq_right hnn]

/-- Witness for C2: the round trip on `SA` at user 1, video 5. -/
theorem C2_toggle_off_roundtrip_witness :
    ∃ s₁ s₂,
      like_video (some 1) SA 5 (some 1) = .ok (s₁, ⟨1, 1, 0⟩) ∧
      like_video (some 1) s₁ 5 (some 1) = .ok (s₂, ⟨0, 0, 0⟩) ∧
      findLike s₂ 1 5 = none ∧
      getVideo s₂ 5 = some ⟨2, 0, 0, 0, 0⟩ :=
  C2_toggle_off_roundtrip SA 1 5 ⟨2, 0, 0, 0, 0⟩ (by decide) (by decide) (by decide)

/-! ### C3: counters never go negative -/

/-- One engagement operation of the kind claim C3 quantifies over: a video
reaction (`POST /api/like`) or a comment-like toggle
(`POST /api/comment_like`), both by an authenticated user. -/
inductive EngageOp where
  | react (uid vid : Nat) (value? : Option Int)
  | clike (uid cid : Nat)
deriving DecidableEq, Repr

/-- The state effect of one engagement operation (responses discarded). -/
def applyOp (s : State) (op : EngageOp) : State :=
  match op with
  | .react uid vid value? => (likeVideoCore s uid vid (value?.getD 1)).1
  | .clike uid cid =>
    match like_comment (some uid) s cid with
    | .ok (s', _) => s'
    | .error _ => s

/-- Run a sequence of engagement operations. -/
def applyOps (s : State) (ops : List EngageOp) : State := ops.foldl applyOp s

/-- The C3 invariant: every video's `likes_count` and `dislikes_count`,
and every comment's `likes_count`, is non-negative. -/
def CountersNonneg (s : State) : Prop :=
  (∀ p ∈ s.videos, 0 ≤ p.2.likes_count ∧ 0 ≤ p.2.dislikes_count) ∧
  (∀ p ∈ s.comments, 0 ≤ p.2.likes_count)

theorem mem_updVideo_pres {P : Video → Prop} (s : State) (vid : Nat) (f : Video → Video)
    (hf : ∀ v, P v → P (f v)) (h : ∀ p ∈ s.videos, P p.2) :
    ∀ p ∈ (updVideo s vid f).videos, P p.2 := by
  intro p hp
  rw [updVideo] at hp
  simp only [List.mem_map] at hp
  obtain ⟨q, hq, rfl⟩ := hp
  by_cases hqv : q.1 = vid
  · simpa [hqv] using hf _ (h q hq)
  · simpa [hqv] using h q hq

theorem mem_updComment_pres {P : Comment → Prop} (s : State) (cid : Nat) (f : Comment → Comment)
    (hf : ∀ c, P c → P (f c)) (h : ∀ p ∈ s.comments, P p.2) :
    ∀ p ∈ (updComment s cid f).comments, P p.2 := by
  intro p hp
  rw [updComment] at hp
  simp only [List.mem_map] at hp
  obtain ⟨q, hq, rfl⟩ := hp
  by_cases hqc : q.1 = cid
  · simpa [hqc] using hf _ (h q hq)
  · simpa [hqc] using h q hq

theorem nonneg_updVideo (s : State) (vid : Nat) (f : Video → Video)
    (hf : ∀ v, 0 ≤ v.likes_count ∧ 0 ≤ v.dislikes_count →
      0 ≤ (f v).likes_count ∧ 0 ≤ (f v).dislikes_count)
    (h : CountersNonneg s) : CountersNonneg (updVideo s vid f) :=
  ⟨mem_updVideo_pres s vid f hf h.1, h.2⟩

theorem nonneg_updComment (s : State) (cid : Nat) (f : Comment → Comment)
    (hf : ∀ c, 0 ≤ c.likes_count → 0 ≤ (f c).likes_count)
    (h : CountersNonneg s) : CountersNonneg (updComment s cid f) :=
  ⟨h.1, mem_updComment_pres s cid f hf h.2⟩

theorem likeVideoCore_nonneg (s : State) (uid vid : Nat) (value : Int)
    (h : CountersNonneg s) : CountersNonneg (likeVideoCore s uid vid value).1 := by
  unfold likeVideoCore
  cases hf : findLike s uid vid with
  | some ex =>
    simp only
    split
    · split
      · exact nonneg_updVideo _ _ _ (fun v hv => ⟨le_max_left _ _, hv.2⟩) h
      · exact nonneg_updVideo _ _ _ (fun v hv => ⟨hv.1, le_max_left _ _⟩) h
    · split
      · exact nonneg_updVideo _ _ _ (fun v hv =>
          ⟨show (0 : Int) ≤ v.likes_count + 1 by obtain ⟨h1, h2⟩ := hv; omega,
           le_max_left _ _⟩) h
      · exact nonneg_updVideo _ _ _ (fun v hv =>
          ⟨le_max_left _ _,
           show (0 : Int) ≤ v.dislikes_count + 1 by obtain ⟨h1, h2⟩ := hv; omega⟩) h
  | none =>
    simp only
    split
    · split
      · exact nonneg_updVideo _ _ _ (fun v hv =>
          ⟨show (0 : Int) ≤ v.likes_count + 1 by obtain ⟨h1, h2⟩ := hv; omega, hv.2⟩) h
      · exact nonneg_updVideo _ _ _ (fun v hv =>
          ⟨hv.1, show (0 : Int) ≤ v.dislikes_count + 1 by obtain ⟨h1, h2⟩ := hv; omega⟩) h
    · exact h

theorem like_comment_nonneg (s : State) (uid cid : Nat)
    (h : CountersNonneg s) :
    ∀ s' r, like_comment (some uid) s cid = .ok (s', r) → CountersNonneg s' := by
  intro s' r hok
  simp only [like_comment] at hok
  split at hok
  · simp only [Except.ok.injEq, Prod.mk.injEq] at hok
    obtain ⟨rfl, -⟩ := hok
    exact nonneg_updComment _ _ _ (fun c _ => le_max_left _ _) h
  · simp only [Except.ok.injEq, Prod.mk.injEq] at hok
    obtain ⟨rfl, -⟩ := hok
    exact nonneg_updComment _ _ _ (fun c hc =>
      show (0 : Int) ≤ c.likes_count + 1 by omega) h

theorem applyOp_nonneg (s : State) (op : EngageOp)
    (h : CountersNonneg s) : CountersNonneg (applyOp s op) := by
  cases op with
  | react uid vid value? => exact likeVideoCore_nonneg s uid vid _ h
  | clike uid cid =>
    simp only [applyOp]
    cases hok : like_comment (some uid) s cid with
    | ok p =>
      obtain ⟨s', r⟩ := p
      exact like_comment_nonneg s uid cid h s' r hok
    | error e => exact h

/-- C3: starting from any state with non-negative video and comment
counters, every sequence of reaction and comment-like operations keeps
them non-negative. -/
theorem C3_counters_never_negative (s : State) (ops : List EngageOp)
    (h : CountersNonneg s) : CountersNonneg (applyOps s ops) := by
  induction ops generalizing s with
  | nil => exact h
  | cons op rest ih => exact ih (applyOp s op) (applyOp_nonneg s op h)

/-- Witness for C3: a toggle-off of a like that was never counted (on a
video with zero counters) still leaves every counter non-negative. -/
theorem C3_counters_never_negative_witness :
    CountersNonneg (applyOps SA
      [.react 1 5 (some 1), .react 1 5 (some 1), .react 1 5 (some (-1)),
       .react 1 5 (some 0), .clike 1 9]) :=
  C3_counters_never_negative SA _ (by constructor <;> decide)

/-! ### C4 and C5: self-subscription and self-notification -/

/-- Counterexample to C4: in `SA` (which has no notifications) user 1
subscribes to their own channel (channel_id = 1 = uid); `subscribe`
succeeds and inserts a `subscribe` notification whose recipient
(`user_id = 1`) equals the originating user (`from_user_id = 1`). -/
theorem C4_counterexample :
    SA.notifications = [] ∧
    subscribe (some 1) SA 1 0 =
      .ok ({ SA with
              subscriptions := [(1, 1)],
              notifications := [⟨1, 1, NType.subscribe, none, false, 0⟩] }, true) :=
  ⟨rfl, rfl⟩

/-- C4 amended: posting a comment never creates a self-notification (the
source checks `video['user_id'] != uid`), but creating a subscription
notifies the channel unconditionally — in particular a user subscribing
to their own channel receives a self-notification. -/
theorem C4_no_self_notification_amended (s : State) (uid vid ch : Nat)
    (text : String) (now : Nat) :
    (∀ s' cid, add_comment (some uid) s vid text now = .ok (s', cid) →
      ∀ n ∈ s'.notifications,
        n ∈ s.notifications ∨ (n.from_user_id = uid ∧ n.user_id ≠ uid)) ∧
    (s.subscriptions.any (fun p => p.1 = uid ∧ p.2 = ch) = false →
      subscribe (some uid) s ch now =
        .ok ({ s with
                subscriptions := s.subscriptions ++ [(uid, ch)],
                notifications :=
                  s.notifications ++ [⟨ch, uid, NType.subscribe, none, false, now⟩] },
             true)) := by
  constructor
  · intro s' cid hok n hn
    simp only [add_comment] at hok
    split at hok
    · exact absurd hok (by simp)
    · split at hok
      · -- getVideo returned some v: split on the owner check
        rename_i v heq
        split at hok
        · -- owner differs: one notification appended
          rename_i hne
          simp only [Except.ok.injEq, Prod.mk.injEq] at hok
          obtain ⟨rfl, -⟩ := hok
          rcases List.mem_append.mp hn with hmem | hnew
          · exact Or.inl hmem
          · rw [List.mem_singleton] at hnew
            subst hnew
            exact Or.inr ⟨rfl, hne⟩
        · -- owner equals commenter: notifications unchanged
          simp only [Except.ok.injEq, Prod.mk.injEq] at hok
          obtain ⟨rfl, -⟩ := hok
          exact Or.inl hn
      · -- video absent: notifications unchanged
        simp only [Except.ok.injEq, Prod.mk.injEq] at hok
        obtain ⟨rfl, -⟩ := hok
        exact Or.inl hn
  · intro h
    simp [subscribe, h]
    simp only [List.any_eq_false, decide_eq_true_eq] at h
    intro hmem
    exact h _ hmem ⟨rfl, rfl⟩

/-- Witness for the amended C4: subscribing to a different user's channel
(user 1 → channel 2) on `SA` appends the expected notification row. -/
theorem C4_no_self_notification_amended_witness :
    subscribe (some 1) SA 2 0 =
      .ok ({ SA with
              subscriptions := [(1, 2)],
              notifications := [⟨2, 1, NType.subscribe, none, false, 0⟩] }, true) :=
  (C4_no_self_notification_amended SA 1 5 2 "hi" 0).2 (by decide)

/-- Counterexample to C5: `subscribe` by user 1 for channel 1 (their own)
does not fail with `InvalidInput` — it succeeds, inserting the
subscription row (1, 1) and a notification row. -/
theorem C5_counterexample :
    subscribe (some 1) SA 1 0 ≠ .error Err.InvalidInput ∧
    subscribe (some 1) SA 1 0 =
      .ok ({ SA with
              subscriptions := [(1, 1)],
              notifications := [⟨1, 1, NType.subscribe, none, false, 0⟩] }, true) :=
  ⟨by intro h; simp [subscribe, SA] at h, rfl⟩

/-- C5 amended: self-subscription is accepted, not rejected: when user
`uid` has no subscription row for channel `uid`, `subscribe` succeeds with
`subscribed = true`, creates the row `(uid, uid)`, and creates a
`subscribe` notification addressed to `uid` themself. -/
theorem C5_self_subscription_accepted (s : State) (uid : Nat) (now : Nat)
    (h : s.subscriptions.any (fun p => p.1 = uid ∧ p.2 = uid) = false) :
    subscribe (some uid) s uid now =
      .ok ({ s with
              subscriptions := s.subscriptions ++ [(uid, uid)],
              notifications :=
                s.notifications ++ [⟨uid, uid, NType.subscribe, none, false, now⟩] },
           true) := by
  simp [subscribe, h]
  simp only [List.any_eq_false, decide_eq_true_eq] at h
  intro hmem
  exact h _ hmem ⟨rfl, rfl⟩

/-- Witness for the amended C5 at user 1 on `SA`. -/
theorem C5_self_subscription_accepted_witness :
    subscribe (some 1) SA 1 0 =
      .ok ({ SA with
              subscriptions := [(1, 1)],
              notifications := [⟨1, 1, NType.subscribe, none, false, 0⟩] }, true) :=
  C5_self_subscription_accepted SA 1 0 (by decide)

/-! ### C6: comment posting vs. replying -/

/-- C6: posting a top-level comment with non-empty trimmed text inserts
the comment row, increments the video's `comments_count` by exactly 1,
and notifies the owner exactly when the commenter is not the owner;
posting a reply inserts the row but changes neither `comments_count` nor
notifications. -/
theorem C6_comment_vs_reply (s : State) (uid vid : Nat) (v : Video) (text : String)
    (now : Nat) (htext : strip text ≠ "") (hv : getVideo s vid = some v) :
    (∃ s', add_comment (some uid) s vid text now = .ok (s', s.nextCommentId) ∧
      s'.comments = s.comments ++
        [(s.nextCommentId, ⟨uid, vid, pyTake (strip text) 1000, none, 0, false, now⟩)] ∧
      getVideo s' vid = some { v with comments_count := v.comments_count + 1 } ∧
      s'.notifications = (if v.user_id = uid then s.notifications
        else s.notifications ++ [⟨v.user_id, uid, NType.comment, some vid, false, now⟩])) ∧
    (∀ pid : Nat,
      ∃ s', reply_comment (some uid) s vid text (some pid) now = .ok (s', s.nextCommentId) ∧
        s'.comments = s.comments ++
          [(s.nextCommentId, ⟨uid, vid, pyTake (strip text) 1000, some pid, 0, false, now⟩)] ∧
        getVideo s' vid = some v ∧
        s'.notifications = s.notifications) := by
  have hgv2 : getVideo (updVideo
      { s with
        comments := s.comments ++
          [(s.nextCommentId, ⟨uid, vid, pyTake (strip text) 1000, none, 0, false, now⟩)],
        nextCommentId := s.nextCommentId + 1 } vid
      (fun w => { w with comments_count := w.comments_count + 1 })) vid =
      some { v with comments_count := v.comments_count + 1 } := by
    rw [getVideo_updVideo_self]
    have h1 : getVideo
        { s with
          comments := s.comments ++
            [(s.nextCommentId, ⟨uid, vid, pyTake (strip text) 1000, none, 0, false, now⟩)],
          nextCommentId := s.nextCommentId + 1 } vid = getVideo s vid := rfl
    rw [h1, hv]; rfl
  constructor
  · by_cases ho : v.user_id = uid
    · refine ⟨updVideo
        { s with
          comments := s.comments ++
            [(s.nextCommentId, ⟨uid, vid, pyTake (strip text) 1000, none, 0, false, now⟩)],
          nextCommentId := s.nextCommentId + 1 } vid
        (fun w => { w with comments_count := w.comments_count + 1 }), ?_, rfl, hgv2, ?_⟩
      · simp [add_comment, htext, hgv2, ho]
      · simp [updVideo, ho]
    · refine ⟨{ updVideo
        { s with
          comments := s.comments ++
            [(s.nextCommentId, ⟨uid, vid, pyTake (strip text) 1000, none, 0, false, now⟩)],
          nextCommentId := s.nextCommentId + 1 } vid
        (fun w => { w with comments_count := w.comments_count + 1 }) with
          notifications :=
            (updVideo
              { s with
                comments := s.comments ++
                  [(s.nextCommentId, ⟨uid, vid, pyTake (strip text) 1000, none, 0, false, now⟩)],
                nextCommentId := s.nextCommentId + 1 } vid
              (fun w => { w with comments_count := w.comments_count + 1 })).notifications ++
              [⟨v.user_id, uid, NType.comment, some vid, false, now⟩] },
        ?_, rfl, hgv2, ?_⟩
      · simp [add_comment, htext, hgv2, ho]
      · simp [ho, updVideo]
  · intro pid
    exact ⟨{ s with
        comments := s.comments ++
          [(s.nextCommentId, ⟨uid, vid, pyTake (strip text) 1000, some pid, 0, false, now⟩)],
        nextCommentId := s.nextCommentId + 1 },
      by simp [reply_comment, htext], rfl, hv, rfl⟩

/-- Witness for C6: user 1 comments on video 5 (owned by user 2) in `SA`:
the comment row appears, `comments_count` becomes 1, and the owner gets a
notification; a reply by user 1 changes neither counter nor inbox. -/
theorem C6_comment_vs_reply_witness :
    (∃ s', add_comment (some 1) SA 5 "hi" 7 = .ok (s', 1) ∧
      s'.comments = [(1, ⟨1, 5, "hi", none, 0, false, 7⟩)] ∧
      getVideo s' 5 = some ⟨2, 0, 0, 0, 1⟩ ∧
      s'.notifications = [⟨2, 1, NType.comment, some 5, false, 7⟩]) ∧
    (∃ s', reply_comment (some 1) SA 5 "hi" (some 3) 7 = .ok (s', 1) ∧
      s'.comments = [(1, ⟨1, 5, "hi", some 3, 0, false, 7⟩)] ∧
      getVideo s' 5 = some ⟨2, 0, 0, 0, 0⟩ ∧
      s'.notifications = []) :=
  ⟨by
    obtain ⟨s', h1, h2, h3, h4⟩ :=
      (C6_comment_vs_reply SA 1 5 ⟨2, 0, 0, 0, 0⟩ "hi" 7 (by decide) (by decide)).1
    exact ⟨s', h1, h2, h3, by simpa using h4⟩,
   by
    obtain ⟨s', h1, h2, h3, h4⟩ :=
      (C6_comment_vs_reply SA 1 5 ⟨2, 0, 0, 0, 0⟩ "hi" 7 (by decide) (by decide)).2 3
    exact ⟨s', h1, h2, h3, h4⟩⟩

/-! ### C7: notification listing marks everything read -/

theorem mem_insertDesc (b n : NotifView) (l : List NotifView) :
    b ∈ insertDesc n l ↔ b = n ∨ b ∈ l := by
  induction l with
  | nil => simp [insertDesc]
  | cons m ms ih =>
    rw [insertDesc]
    by_cases hc : m.created_at ≤ n.created_at
    · simp [hc]
    · simp only [if_neg hc, List.mem_cons, ih]
      tauto

theorem pairwise_insertDesc (n : NotifView) (l : List NotifView)
    (h : l.Pairwise (fun a b => b.created_at ≤ a.created_at)) :
    (insertDesc n l).Pairwise (fun a b => b.created_at ≤ a.created_at) := by
  induction l with
  | nil => simp [insertDesc]
  | cons m ms ih =>
    rw [insertDesc]
    by_cases hc : m.created_at ≤ n.created_at
    · rw [if_pos hc]
      refine List.Pairwise.cons ?_ h
      intro b hb
      rcases List.mem_cons.mp hb with rfl | hb'
      · exact hc
      · exact le_trans (List.rel_of_pairwise_cons h hb') hc
    · rw [if_neg hc]
      refine List.Pairwise.cons ?_ (ih (List.Pairwise.of_cons h))
      intro b hb
      rcases (mem_insertDesc b n ms).mp hb with rfl | hb'
      · exact le_of_lt (Nat.lt_of_not_le hc)
      · exact List.rel_of_pairwise_cons h hb'

theorem pairwise_sortDesc (l : List NotifView) :
    (sortDesc l).Pairwise (fun a b => b.created_at ≤ a.created_at) := by
  induction l with
  | nil => exact List.Pairwise.nil
  | cons n ns ih => exact pairwise_insertDesc n (sortDesc ns) ih

theorem mem_sortDesc (b : NotifView) (l : List NotifView) :
    b ∈ sortDesc l ↔ b ∈ l := by
  induction l with
  | nil => simp [sortDesc]
  | cons n ns ih => rw [sortDesc, mem_insertDesc, ih, List.mem_cons]

/-- C7: for an authenticated user, the notification listing returns at
most 50 entries, ordered by `created_at` descending, each carrying the
originating user's display identity as stored in `users`; and as a side
effect every notification of that user (not just the returned page) is
marked read, so the unread count afterwards is 0. -/
theorem C7_notifications_mark_all_read (s : State) (uid : Nat) :
    ∀ page s', notifications_route (some uid) s = (page, s') →
      page.length ≤ 50 ∧
      page.Pairwise (fun a b => b.created_at ≤ a.created_at) ∧
      (∀ x ∈ page, x.user_id = uid ∧
        getUser s x.from_user_id = some ⟨x.from_name, x.from_avatar⟩) ∧
      (∀ n ∈ s'.notifications, n.user_id = uid → n.read = true) ∧
      unreadCount s' uid = 0 := by
  intro page s' h
  simp only [notifications_route] at h
  obtain ⟨rfl, rfl⟩ := Prod.mk.injEq .. ▸ h
  refine ⟨List.length_take_le _ _, (pairwise_sortDesc _).sublist (List.take_sublist _ _),
    ?_, ?_, ?_⟩
  · intro x hx
    have hx' := (mem_sortDesc x _).mp (List.mem_of_mem_take hx)
    simp only [List.mem_filterMap] at hx'
    obtain ⟨n, hn, hmap⟩ := hx'
    split at hmap
    · rename_i hid
      simp only [Option.map_eq_some'] at hmap
      obtain ⟨u, hu, rfl⟩ := hmap
      exact ⟨hid, hu⟩
    · exact absurd hmap (by simp)
  · intro n hn hid
    simp only [List.mem_map] at hn
    obtain ⟨m, hm, rfl⟩ := hn
    by_cases hmu : m.user_id = uid
    · simp [hmu]
    · simp only [if_neg hmu] at hid ⊢
      exact absurd hid hmu
  · rw [unreadCount, List.filter_eq_nil_iff.mpr, List.length_nil]
    intro n hn
    simp only [List.mem_map] at hn
    obtain ⟨m, hm, rfl⟩ := hn
    by_cases hmu : m.user_id = uid
    · simp [hmu]
    · simp [hmu]

/-- A database where user 2 has two unread notifications from user 1. -/
def SC : State :=
  { SA with notifications :=
      [⟨2, 1, NType.subscribe, none, false, 3⟩,
       ⟨2, 1, NType.comment, some 5, false, 9⟩] }

/-- The page `GET /api/notifications` returns for user 2 on `SC`:
newest first, joined with user 1's display identity. -/
def SCpage : List NotifView :=
  [⟨2, 1, NType.comment, some 5, false, 9, "alice", none⟩,
   ⟨2, 1, NType.subscribe, none, false, 3, "alice", none⟩]

/-- The state after the listing: both notifications marked read. -/
def SCafter : State :=
  { SA with notifications :=
      [⟨2, 1, NType.subscribe, none, true, 3⟩,
       ⟨2, 1, NType.comment, some 5, true, 9⟩] }

/-- Witness for C7: on `SC`, the listing for user 2 returns the two
notifications newest first with user 1's identity, marks both read, and
drops the unread count to 0. -/
theorem C7_notifications_mark_all_read_witness :
    SCpage.length ≤ 50 ∧
    SCpage.Pairwise (fun a b => b.created_at ≤ a.created_at) ∧
    (∀ x ∈ SCpage, x.user_id = 2 ∧
      getUser SC x.from_user_id = some ⟨x.from_name, x.from_avatar⟩) ∧
    (∀ n ∈ SCafter.notifications, n.user_id = 2 → n.read = true) ∧
    unreadCount SCafter 2 = 0 :=
  C7_notifications_mark_all_read SC 2 SCpage SCafter (by decide)

/-! ### C8: view recording and watch history -/

/-- Repeated `POST /api/view` calls for the same video, at the successive
instants listed in `ts`. -/
def record_views (uid? : Option Nat) (s : State) (vid : Nat) (ts : List Nat) : State :=
  ts.foldl (fun s t => add_view uid? s (some vid) t) s

/-- Number of `history` rows keyed (uid, vid). -/
def countHist (s : State) (uid vid : Nat) : Nat :=
  (s.history.filter (fun h => h.user_id = uid ∧ h.video_id = vid)).length

/-- The `watched_at` of the (first) `history` row keyed (uid, vid). -/
def histTime (s : State) (uid vid : Nat) : Option Nat :=
  (s.history.find? (fun h => h.user_id = uid ∧ h.video_id = vid)).map (·.watched_at)

theorem history_updVideo (s : State) (vid : Nat) (f : Video → Video) :
    (updVideo s vid f).history = s.history := rfl

theorem getVideo_add_view (uid? : Option Nat) (s : State) (vid now : Nat) (v : Video)
    (hvz : vid ≠ 0) (hv : getVideo s vid = some v) :
    getVideo (add_view uid? s (some vid) now) vid = some { v with views := v.views + 1 } := by
  have base : getVideo (updVideo s vid (fun v => { v with views := v.views + 1 })) vid =
      some { v with views := v.views + 1 } := by
    rw [getVideo_updVideo_self, hv]; rfl
  simp only [add_view]
  rw [if_neg hvz]
  cases uid? with
  | none => exact base
  | some u =>
    simp only
    split
    · exact base
    · exact base

theorem length_filter_histUpd (l : List HistRow) (u vid now : Nat) :
    ((l.map fun h =>
        if h.user_id = u ∧ h.video_id = vid then { h with watched_at := now } else h).filter
      (fun h => h.user_id = u ∧ h.video_id = vid)).length =
    (l.filter (fun h => h.user_id = u ∧ h.video_id = vid)).length := by
  induction l with
  | nil => rfl
  | cons a t ih =>
    rw [List.map_cons]
    by_cases ha : a.user_id = u ∧ a.video_id = vid
    · rw [if_pos ha,
        List.filter_cons_of_pos (by simpa using ha),
        List.filter_cons_of_pos (by simpa using ha),
        List.length_cons, List.length_cons, ih]
    · rw [if_neg ha,
        List.filter_cons_of_neg (by simpa using ha),
        List.filter_cons_of_neg (by simpa using ha), ih]

theorem histTime_histUpd (l : List HistRow) (u vid now : Nat)
    (hfound : l.any (fun h => h.user_id = u ∧ h.video_id = vid) = true) :
    ((l.map fun h =>
        if h.user_id = u ∧ h.video_id = vid then { h with watched_at := now } else h).find?
      (fun h => h.user_id = u ∧ h.video_id = vid)).map (·.watched_at) = some now := by
  induction l with
  | nil => simp at hfound
  | cons a t ih =>
    rw [List.map_cons]
    by_cases ha : a.user_id = u ∧ a.video_id = vid
    · rw [if_pos ha, List.find?_cons_of_pos _ (by simpa using ha)]
      rfl
    · have ht : t.any (fun h => h.user_id = u ∧ h.video_id = vid) = true := by
        rcases List.any_eq_true.mp hfound with ⟨x, hx, hpx⟩
        rcases List.mem_cons.mp hx with rfl | hx'
        · exact absurd (by simpa using hpx) ha
        · exact List.any_eq_true.mpr ⟨x, hx', hpx⟩
      rw [if_neg ha, List.find?_cons_of_neg _ (by simpa using ha), ih ht]

/-- One authenticated `add_view` call: if at most one history row for
(u, vid) existed, exactly one exists afterwards and its `watched_at` is
the instant of the call. -/
theorem add_view_hist_upsert (s : State) (u vid now : Nat) (hvz : vid ≠ 0)
    (h : countHist s u vid ≤ 1) :
    countHist (add_view (some u) s (some vid) now) u vid = 1 ∧
    histTime (add_view (some u) s (some vid) now) u vid = some now := by
  simp only [add_view]
  rw [if_neg hvz]
  split
  · rename_i hany
    have hany' : s.history.any (fun h => h.user_id = u ∧ h.video_id = vid) = true := hany
    constructor
    · show ((s.history.map fun h : HistRow =>
          if h.user_id = u ∧ h.video_id = vid then { h with watched_at := now }
          else h).filter (fun h => h.user_id = u ∧ h.video_id = vid)).length = 1
      rw [length_filter_histUpd]
      have hge : 1 ≤ (s.history.filter (fun h => h.user_id = u ∧ h.video_id = vid)).length := by
        rcases List.any_eq_true.mp hany' with ⟨x, hx, hpx⟩
        have : x ∈ s.history.filter (fun h => h.user_id = u ∧ h.video_id = vid) :=
          List.mem_filter.mpr ⟨hx, hpx⟩
        exact List.length_pos.mpr (List.ne_nil_of_mem this)
      exact le_antisymm h hge
    · exact histTime_histUpd s.history u vid now hany'
  · rename_i hany
    have hany' : ¬ s.history.any (fun h => h.user_id = u ∧ h.video_id = vid) = true := hany
    have hnone : ∀ x ∈ s.history, ¬ ((fun h : HistRow =>
        decide (h.user_id = u ∧ h.video_id = vid)) x = true) := by
      intro x hx hpx
      exact hany' (List.any_eq_true.mpr ⟨x, hx, by simpa using hpx⟩)
    have hfilter : s.history.filter (fun h => h.user_id = u ∧ h.video_id = vid) = [] :=
      List.filter_eq_nil_iff.mpr (by intro a ha; simpa using hnone a ha)
    constructor
    · show ((s.history ++ [(⟨u, vid, now⟩ : HistRow)]).filter
        (fun h => h.user_id = u ∧ h.video_id = vid)).length = 1
      rw [List.filter_append, hfilter]
      simp
    · show ((s.history ++ [(⟨u, vid, now⟩ : HistRow)]).find?
        (fun h => h.user_id = u ∧ h.video_id = vid)).map (·.watched_at) = some now
      rw [List.find?_append, List.find?_eq_none.mpr (by
        intro x hx; exact fun hpx => hnone x hx hpx)]
      simp

/-- Anonymous views leave `history` untouched. -/
theorem add_view_anon_history (s : State) (vid now : Nat) :
    (add_view none s (some vid) now).history = s.history := by
  by_cases h0 : vid = 0
  · simp [add_view, h0]
  · simp [add_view, h0, updVideo]

/-- C8: calling `add_view` once per instant in `ts` adds exactly
`ts.length` to the video's `views` counter regardless of session; for an
authenticated user starting from at most one (dedup-consistent) history
row, a non-empty call sequence leaves exactly one history row for
(u, vid) whose `watched_at` is the instant of the last call; anonymous
calls never touch `history`. -/
theorem C8_record_view (s : State) (vid : Nat) (v : Video) (ts : List Nat)
    (hvz : vid ≠ 0) (hv : getVideo s vid = some v) :
    (∀ uid? : Option Nat, getVideo (record_views uid? s vid ts) vid =
      some { v with views := v.views + ts.length }) ∧
    (∀ u : Nat, countHist s u vid ≤ 1 → ts ≠ [] →
      countHist (record_views (some u) s vid ts) u vid = 1 ∧
      histTime (record_views (some u) s vid ts) u vid = ts.getLast?) ∧
    (record_views none s vid ts).history = s.history := by
  refine ⟨?_, ?_, ?_⟩
  · intro uid?
    induction ts generalizing s v with
    | nil =>
      obtain ⟨a, b, c, d, e⟩ := v
      simpa [record_views] using hv
    | cons t rest ih =>
      have h1 := getVideo_add_view uid? s vid t v hvz hv
      have h2 := ih (add_view uid? s (some vid) t) _ h1
      rw [show record_views uid? s vid (t :: rest) =
        record_views uid? (add_view uid? s (some vid) t) vid rest from rfl, h2]
      obtain ⟨a, b, c, d, e⟩ := v
      simp only [Video.mk.injEq, List.length_cons, true_and, and_true]
      push_cast
      ring
  · intro u hcount hne
    clear hv
    induction ts generalizing s with
    | nil => exact absurd rfl hne
    | cons t rest ih =>
      cases rest with
      | nil =>
        have := add_view_hist_upsert s u vid t hvz hcount
        exact ⟨this.1, this.2⟩
      | cons b bs =>
        have hstep := add_view_hist_upsert s u vid t hvz hcount
        have hle : countHist (add_view (some u) s (some vid) t) u vid ≤ 1 := by rw [hstep.1]
        have := ih (add_view (some u) s (some vid) t) hle (by simp)
        exact this
  · clear hv
    induction ts generalizing s with
    | nil => rfl
    | cons t rest ih =>
      rw [show record_views none s vid (t :: rest) =
        record_views none (add_view none s (some vid) t) vid rest from rfl]
      rw [ih (add_view none s (some vid) t), add_view_anon_history]

/-- Witness for C8: three views of video 5 in `SA` by user 1 at instants
4, 6, 8: `views` goes 0 to 3, one history row remains with
`watched_at = 8`. -/
theorem C8_record_view_witness :
    (∀ uid? : Option Nat, getVideo (record_views uid? SA 5 [4, 6, 8]) 5 =
      some { Video.mk 2 0 0 0 0 with views := 0 + (3 : Nat) }) ∧
    (∀ u : Nat, countHist SA u 5 ≤ 1 → [4, 6, 8] ≠ [] →
      countHist (record_views (some u) SA 5 [4, 6, 8]) u 5 = 1 ∧
      histTime (record_views (some u) SA 5 [4, 6, 8]) u 5 = [4, 6, 8].getLast?) ∧
    (record_views none SA 5 [4, 6, 8]).history = SA.history :=
  C8_record_view SA 5 ⟨2, 0, 0, 0, 0⟩ [4, 6, 8] (by decide) (by decide)


/-! ### C9: arbitrary reaction values -/

/-- C9: with no existing reaction, any non-zero submitted value is stored
verbatim in the ledger, and exactly one counter is incremented:
`likes_count` when the value equals 1, otherwise `dislikes_count` (so a
value like 2 is counted as a dislike while stored as 2); an omitted
`value` field behaves exactly like submitting 1. -/
theorem C9_nonzero_value_stored_verbatim (s : State) (uid vid : Nat) (v : Video)
    (value : Int) (hv : getVideo s vid = some v) (h0 : findLike s uid vid = none)
    (hnz : value ≠ 0) :
    (∃ s', like_video (some uid) s vid (some value) =
        .ok (s', ⟨value,
          if value = 1 then v.likes_count + 1 else v.likes_count,
          if value = 1 then v.dislikes_count else v.dislikes_count + 1⟩) ∧
      findLike s' uid vid = some value ∧
      getVideo s' vid = some (if value = 1
        then { v with likes_count := v.likes_count + 1 }
        else { v with dislikes_count := v.dislikes_count + 1 })) ∧
    like_video (some uid) s vid none = like_video (some uid) s vid (some 1) := by
  constructor
  · by_cases h1 : value = 1
    · subst h1
      refine ⟨updVideo (insertLike s uid vid 1) vid
        (fun w => { w with likes_count := w.likes_count + 1 }), ?_, ?_, ?_⟩
      · have hgv : getVideo (updVideo (insertLike s uid vid 1) vid
            (fun w => { w with likes_count := w.likes_count + 1 })) vid =
            some { v with likes_count := v.likes_count + 1 } := by
          rw [getVideo_updVideo_self, getVideo_insertLike, hv]; rfl
        simp [like_video, likeVideoCore, h0, hgv]
      · rw [findLike_updVideo, findLike_insertLike_self]
      · rw [getVideo_updVideo_self, getVideo_insertLike, hv]; rfl
    · refine ⟨updVideo (insertLike s uid vid value) vid
        (fun w => { w with dislikes_count := w.dislikes_count + 1 }), ?_, ?_, ?_⟩
      · have hgv : getVideo (updVideo (insertLike s uid vid value) vid
            (fun w => { w with dislikes_count := w.dislikes_count + 1 })) vid =
            some { v with dislikes_count := v.dislikes_count + 1 } := by
          rw [getVideo_updVideo_self, getVideo_insertLike, hv]; rfl
        simp [like_video, likeVideoCore, h0, hgv, hnz, h1]
      · rw [findLike_updVideo, findLike_insertLike_self]
      · rw [getVideo_updVideo_self, getVideo_insertLike, hv]
        simp [h1]
  · rfl

/-- Witness for C9: in `SA`, user 1 submits value 2 for video 5: the
ledger stores 2 and `dislikes_count` goes to 1 while `likes_count` stays
0; a request with no `value` field acts as a like. -/
theorem C9_nonzero_value_stored_verbatim_witness :
    (∃ s', like_video (some 1) SA 5 (some 2) = .ok (s', ⟨2, 0, 1⟩) ∧
      findLike s' 1 5 = some 2 ∧
      getVideo s' 5 = some ⟨2, 0, 0, 1, 0⟩) ∧
    like_video (some 1) SA 5 none = like_video (some 1) SA 5 (some 1) := by
  obtain ⟨h1, h2⟩ := C9_nonzero_value_stored_verbatim SA 1 5 ⟨2, 0, 0, 0, 0⟩ 2
    (by decide) (by decide) (by decide)
  obtain ⟨s', ha, hb, hc⟩ := h1
  exact ⟨⟨s', by simpa using ha, hb, by simpa using hc⟩, h2⟩

/-! ### C10: delete-comment silently succeeds -/

/-- C10: for an authenticated caller, `delete_comment` always returns
success; rows are deleted only when both the id and the author match, and
when nothing matches the state is completely unchanged — no NotFound or
Forbidden outcome exists on this path. -/
theorem C10_delete_comment_always_success (s : State) (uid cid : Nat) :
    ∃ s', delete_comment (some uid) s cid = .ok s' ∧
      s'.comments = s.comments.filter (fun p => ¬(p.1 = cid ∧ p.2.user_id = uid)) ∧
      ((∀ p ∈ s.comments, ¬(p.1 = cid ∧ p.2.user_id = uid)) → s' = s) := by
  refine ⟨_, rfl, rfl, ?_⟩
  intro h
  have hfil : s.comments.filter (fun p => ¬(p.1 = cid ∧ p.2.user_id = uid)) = s.comments :=
    List.filter_eq_self.mpr (by
      intro a ha
      have h2 := h a ha
      simp only [not_and] at h2
      simp only [decide_not, Bool.not_eq_false', decide_eq_true_eq, not_and]
      by_cases hc : a.1 = cid
      · simp only [hc]
        tauto
      · tauto)
  show { s with comments :=
    s.comments.filter (fun p => ¬(p.1 = cid ∧ p.2.user_id = uid)) } = s
  rw [hfil]

/-- A database with one comment (id 1, by user 1) on video 5. -/
def SB : State :=
  { SA with comments := [(1, ⟨1, 5, "hey", none, 0, false, 2⟩)], nextCommentId := 2 }

/-- Witness for C10: user 2 (not the author) asks to delete comment 1 in
`SB`: the call reports success and the state is unchanged. -/
theorem C10_delete_comment_always_success_witness :
    ∃ s', delete_comment (some 2) SB 1 = .ok s' ∧ s' = SB := by
  obtain ⟨s', h1, h2, h3⟩ := C10_delete_comment_always_success SB 2 1
  exact ⟨s', h1, h3 (by decide)⟩


end Youko
